import Mathlib

/-!
Verification of the machine layer of the Miri interpreter (machine.rs), as a
shallow embedding in Lean.  Pointer provenance, the memory-hook functions
(adjust_allocation, before_memory_read, before_memory_write,
before_memory_deallocation), the per-frame constant-evaluation cache
(eval_mir_constant, the frame salt of init_frame_extra) and the extern-static
lookup (extern_static_base_pointer) are translated from the source; the calls
into the sub-components (borrow tracker, data-race detector, weak-memory store
buffer), whose modules are outside the examined file, are recorded as events in
an explicit trace, and their fallible outcomes are passed in as parameters.
-/

namespace MiriSpec

/-- Allocation identifier (AllocId in the source): opaque, modelled as Nat. -/
abbrev AllocId := Nat

/-- Borrow Tracker tag (BorTag in the source). -/
abbrev BorTag := Nat

/-- Source location (Span in the source), opaque. -/
abbrev Span := Nat

/-- Pointer provenance from machine.rs: Concrete carries the allocation id and
the borrow tag; Wildcard is the provenance of integer-to-pointer casts. -/
inductive Provenance where
  | Concrete (alloc_id : AllocId) (tag : BorTag)
  | Wildcard
  deriving DecidableEq, Repr

/-- How the fallible machine operations report failure (InterpResult in the
source).  A Rust panic is modelled as the error case panicked. -/
inductive InterpError where
  | ub (msg : String)
  | unsup (msg : String)
  | panicked (msg : String)
  deriving DecidableEq, Repr

/-- Provenance::join from machine.rs (impl interpret::Provenance): the same
concrete provenance joins to itself, a wildcard joins to the other side, and
everything else falls back to None. -/
def Provenance.join (left right : Option Provenance) : Option Provenance :=
  match left, right with
  | some (Provenance.Concrete left_alloc left_tag),
    some (Provenance.Concrete right_alloc right_tag) =>
      if left_alloc = right_alloc ∧ left_tag = right_tag then
        some (Provenance.Concrete left_alloc left_tag)
      else
        none
  | some Provenance.Wildcard, o => o
  | o, some Provenance.Wildcard => o
  | _, _ => none

/-- impl PartialEq for Provenance in machine.rs: the body is a panic, never a
Bool.  Comparing provenance is meaningless since Wildcard might be any
provenance. -/
def Provenance.eq (_left _right : Provenance) : Except String Bool :=
  Except.error "Provenance must not be compared"

/-- impl Hash for Provenance in machine.rs: the body is a panic, never a hash
value. -/
def Provenance.hash (_p : Provenance) : Except String Nat :=
  Except.error "Provenance must not be hashed"

/-- C1: joining two Concrete provenances with the same allocation id and tag
yields that provenance; joining two Concrete provenances that differ in
allocation id or tag yields None; joining Wildcard with any operand yields
that operand. -/
theorem join_spec (a t a' t' : Nat) (h : (a, t) ≠ (a', t')) :
    (∀ b u, Provenance.join (some (Provenance.Concrete b u))
        (some (Provenance.Concrete b u)) = some (Provenance.Concrete b u))
    ∧ Provenance.join (some (Provenance.Concrete a t))
        (some (Provenance.Concrete a' t')) = none
    ∧ (∀ X, Provenance.join (some Provenance.Wildcard) X = X) := by
  refine ⟨fun b u => by simp [Provenance.join], ?_, fun X => by
    match X with
    | none => rfl
    | some (Provenance.Concrete b u) => rfl
    | some Provenance.Wildcard => rfl⟩
  have hne : ¬(a = a' ∧ t = t') := by
    intro ⟨h1, h2⟩
    exact h (by simp [h1, h2])
  simp [Provenance.join, hne]

/-- Witness for C1 at the concrete input a = 0, t = 0, a' = 1, t' = 0. -/
theorem join_spec_witness :
    Provenance.join (some (Provenance.Concrete 0 0))
      (some (Provenance.Concrete 1 0)) = none :=
  (join_spec 0 0 1 0 (by decide)).2.1

/-- C2: for every pair of Provenance values, equality comparison and hashing
both fail loudly (panic) and never return a result, so Provenance is unusable
as a key under generic equality or hash machinery. -/
theorem provenance_never_compared_or_hashed :
    ∀ p q : Provenance,
      (Provenance.eq p q = Except.error "Provenance must not be compared"
        ∧ ∀ b : Bool, Provenance.eq p q ≠ Except.ok b)
      ∧ (Provenance.hash p = Except.error "Provenance must not be hashed"
        ∧ ∀ n : Nat, Provenance.hash p ≠ Except.ok n) := by
  intro p q
  refine ⟨⟨rfl, fun b hb => ?_⟩, ⟨rfl, fun n hn => ?_⟩⟩
  · exact Except.noConfusion hb
  · exact Except.noConfusion hn

/-- Extra memory kinds of machine.rs (enum MiriMemoryKind). -/
inductive MiriMemoryKind where
  | Rust
  | Miri
  | C
  | WinHeap
  | WinLocal
  | Machine
  | Runtime
  | Global
  | ExternStatic
  | Tls
  | Mmap
  deriving DecidableEq, Repr

/-- impl MayLeak for MiriMemoryKind in machine.rs. -/
def MiriMemoryKind.may_leak : MiriMemoryKind → Bool
  | .Rust | .Miri | .C | .WinHeap | .WinLocal | .Runtime => false
  | .Machine | .Global | .ExternStatic | .Tls | .Mmap => true

/-- MiriMemoryKind::should_save_allocation_span in machine.rs: whether a useful
allocation span is recorded for this kind. -/
def MiriMemoryKind.should_save_allocation_span : MiriMemoryKind → Bool
  | .Rust | .Miri | .C | .WinHeap | .WinLocal | .Mmap => true
  | .Machine | .Global | .ExternStatic | .Tls | .Runtime => false

/-- interpret::MemoryKind with machine kinds (type alias MemoryKind of
machine.rs): the interpreter's Stack and CallerLocation kinds plus the machine
kinds above. -/
inductive MemoryKind where
  | Stack
  | CallerLocation
  | Machine (kind : MiriMemoryKind)
  deriving DecidableEq, Repr

/-- MemoryKind::may_leak: the Stack and CallerLocation cases are the interpret
crate's (an external dependency: stack memory never leaks, caller-location
memory may), the Machine case defers to MiriMemoryKind::may_leak. -/
def MemoryKind.may_leak : MemoryKind → Bool
  | .Stack => false
  | .CallerLocation => true
  | .Machine k => k.may_leak

/-- The matches! test of adjust_allocation: the kind is a machine kind whose
allocation span is worth saving. -/
def MemoryKind.saves_allocation_span : MemoryKind → Bool
  | .Machine k => k.should_save_allocation_span
  | _ => false

/-- Non-atomic write type of the data-race detector (NaWriteType): a plain
write or a deallocation treated as a write. -/
inductive NaWriteType where
  | Write
  | Deallocate
  deriving DecidableEq, Repr

/-- Read or write, for the access-tracking diagnostic. -/
inductive AccessKind where
  | Read
  | Write
  deriving DecidableEq, Repr

/-- One observable step of a memory hook: a diagnostic emission, a call into
the borrow tracker (bt), the data-race detector (race) or the weak-memory
store buffer (wm), a span-table update, or the address retirement that commits
a deallocation.  Ranges are (start, size) byte pairs. -/
inductive Event where
  | diagCreatedAlloc (id : AllocId) (size align : Nat) (kind : MemoryKind)
  | diagFreedAlloc (id : AllocId)
  | diagAccessedAlloc (id : AllocId) (access : AccessKind)
  | btNewAllocation (id : AllocId) (size : Nat) (kind : MemoryKind)
  | btRead (id : AllocId) (range : Nat × Nat)
  | btWrite (id : AllocId) (range : Nat × Nat)
  | btDealloc (id : AllocId) (size : Nat)
  | raceNewAllocation (size : Nat) (kind : MemoryKind)
  | raceRead (id : AllocId) (range : Nat × Nat)
  | raceWrite (id : AllocId) (range : Nat × Nat) (ty : NaWriteType)
  | wmNewAllocation
  | wmMemoryAccessed (range : Nat × Nat)
  | spanRecord (id : AllocId) (span : Span)
  | freeAllocId (id : AllocId) (size align : Nat)
  deriving DecidableEq, Repr

/-- Per-allocation extra state (struct AllocExtra of machine.rs): each
sub-component's state is present (Some) or absent (None); the states
themselves live in modules outside the examined file, so they are opaque. -/
structure AllocExtra where
  borrow_tracker : Option Unit
  data_race : Option Unit
  weak_memory : Option Unit
  backtrace : Option Unit
  deriving DecidableEq, Repr

/-- The machine fields the memory hooks consult (struct MiriMachine of
machine.rs): global sub-component state presence, the diagnostic and span
tables, and the configuration flags. -/
structure MachineState where
  borrow_tracker : Option Unit
  data_race : Option Unit
  weak_memory : Bool
  tracked_alloc_ids : List AllocId
  track_alloc_accesses : Bool
  collect_leak_backtraces : Bool
  allocation_spans : List (AllocId × (Span × Option Span))
  current_span : Span
  deriving DecidableEq, Repr

/-- MiriMachine::adjust_allocation: emits the tracked-allocation diagnostic,
then notifies the borrow tracker, the data-race detector and the weak-memory
buffer (in the source's order) to build the AllocExtra, decides whether to
keep a leak backtrace, and records the allocation span for machine kinds that
save one.  Returns the event trace, the updated machine and the AllocExtra. -/
def adjust_allocation (m : MachineState) (id : AllocId) (size align : Nat)
    (kind : MemoryKind) : List Event × MachineState × AllocExtra :=
  let tr0 : List Event :=
    if m.tracked_alloc_ids.contains id then [Event.diagCreatedAlloc id size align kind] else []
  let tr1 : List Event :=
    tr0 ++ (if m.borrow_tracker.isSome then [Event.btNewAllocation id size kind] else [])
  let tr2 : List Event :=
    tr1 ++ (if m.data_race.isSome then [Event.raceNewAllocation size kind] else [])
  let tr3 : List Event :=
    tr2 ++ (if m.weak_memory then [Event.wmNewAllocation] else [])
  let backtrace : Option Unit :=
    if kind.may_leak || !m.collect_leak_backtraces then none else some ()
  let extra : AllocExtra :=
    { borrow_tracker := m.borrow_tracker
      data_race := m.data_race
      weak_memory := if m.weak_memory then some () else none
      backtrace := backtrace }
  let m1 : MachineState :=
    if kind.saves_allocation_span then
      { m with allocation_spans := (id, (m.current_span, none)) :: m.allocation_spans }
    else m
  let tr4 : List Event :=
    tr3 ++ (if kind.saves_allocation_span then [Event.spanRecord id m.current_span] else [])
  (tr4, m1, extra)

/-- Record the deallocation span of an allocation, when its creation span is in
the table (the get_mut branch of before_memory_deallocation). -/
def setDeallocSpan (spans : List (AllocId × (Span × Option Span))) (id : AllocId)
    (s : Span) : List (AllocId × (Span × Option Span)) :=
  spans.map fun e => if e.1 = id then (e.1, (e.2.1, some s)) else e

/-- The tail of before_memory_deallocation after the data-race call: the
borrow-tracker notification, then the span update and the address retirement
(free_alloc_id) that commits the deallocation. -/
def dealloc_after_race (m : MachineState) (ae : AllocExtra) (alloc_id size align : Nat)
    (btResult : Except InterpError Unit) (tr : List Event) :
    List Event × Except InterpError MachineState :=
  match ae.borrow_tracker, btResult with
  | some _, Except.error e => (tr ++ [Event.btDealloc alloc_id size], Except.error e)
  | some _, Except.ok _ =>
      (tr ++ [Event.btDealloc alloc_id size, Event.freeAllocId alloc_id size align],
        Except.ok { m with
          allocation_spans := setDeallocSpan m.allocation_spans alloc_id m.current_span })
  | none, _ =>
      (tr ++ [Event.freeAllocId alloc_id size align],
        Except.ok { m with
          allocation_spans := setDeallocSpan m.allocation_spans alloc_id m.current_span })

/-- MiriMachine::before_memory_deallocation: emits the tracked-allocation
diagnostic, notifies the data-race detector of a deallocating write over the
whole allocation (when race state is present), then the borrow tracker, then
records the deallocation span and retires the address range.  The outcomes of
the two fallible sub-component calls are passed in as raceResult and
btResult. -/
def before_memory_deallocation (m : MachineState) (ae : AllocExtra)
    (alloc_id size align : Nat) (raceResult btResult : Except InterpError Unit) :
    List Event × Except InterpError MachineState :=
  let tr0 : List Event :=
    if m.tracked_alloc_ids.contains alloc_id then [Event.diagFreedAlloc alloc_id] else []
  match ae.data_race, raceResult with
  | some _, Except.error e =>
      (tr0 ++ [Event.raceWrite alloc_id (0, size) NaWriteType.Deallocate], Except.error e)
  | some _, Except.ok _ =>
      dealloc_after_race m ae alloc_id size align btResult
        (tr0 ++ [Event.raceWrite alloc_id (0, size) NaWriteType.Deallocate])
  | none, _ =>
      dealloc_after_race m ae alloc_id size align btResult tr0

/-- The weak-memory step shared by before_memory_read and before_memory_write:
when the allocation has a store buffer, memory_accessed is called with the
global data-race state obtained by unwrap, which panics when the race detector
is disabled. -/
def wm_accessed_step (m : MachineState) (ae : AllocExtra) (range : Nat × Nat)
    (tr : List Event) : List Event × Except InterpError Unit :=
  match ae.weak_memory with
  | some _ =>
      match m.data_race with
      | some _ => (tr ++ [Event.wmMemoryAccessed range], Except.ok ())
      | none =>
          (tr, Except.error (InterpError.panicked "called Option::unwrap on a None value"))
  | none => (tr, Except.ok ())

/-- The tail of before_memory_read after the data-race call: the borrow
tracker, then the weak-memory step. -/
def read_after_race (m : MachineState) (ae : AllocExtra) (alloc_id : AllocId)
    (range : Nat × Nat) (btResult : Except InterpError Unit) (tr : List Event) :
    List Event × Except InterpError Unit :=
  match ae.borrow_tracker, btResult with
  | some _, Except.error e => (tr ++ [Event.btRead alloc_id range], Except.error e)
  | some _, Except.ok _ => wm_accessed_step m ae range (tr ++ [Event.btRead alloc_id range])
  | none, _ => wm_accessed_step m ae range tr

/-- MiriMachine::before_memory_read: the access diagnostic, then the data-race
detector, then the borrow tracker, then the weak-memory buffer. -/
def before_memory_read (m : MachineState) (ae : AllocExtra) (alloc_id : AllocId)
    (range : Nat × Nat) (raceResult btResult : Except InterpError Unit) :
    List Event × Except InterpError Unit :=
  let tr0 : List Event :=
    if m.track_alloc_accesses && m.tracked_alloc_ids.contains alloc_id then
      [Event.diagAccessedAlloc alloc_id AccessKind.Read]
    else []
  match ae.data_race, raceResult with
  | some _, Except.error e => (tr0 ++ [Event.raceRead alloc_id range], Except.error e)
  | some _, Except.ok _ =>
      read_after_race m ae alloc_id range btResult (tr0 ++ [Event.raceRead alloc_id range])
  | none, _ => read_after_race m ae alloc_id range btResult tr0

/-- The tail of before_memory_write after the data-race call. -/
def write_after_race (m : MachineState) (ae : AllocExtra) (alloc_id : AllocId)
    (range : Nat × Nat) (btResult : Except InterpError Unit) (tr : List Event) :
    List Event × Except InterpError Unit :=
  match ae.borrow_tracker, btResult with
  | some _, Except.error e => (tr ++ [Event.btWrite alloc_id range], Except.error e)
  | some _, Except.ok _ => wm_accessed_step m ae range (tr ++ [Event.btWrite alloc_id range])
  | none, _ => wm_accessed_step m ae range tr

/-- MiriMachine::before_memory_write: the access diagnostic, then the data-race
detector, then the borrow tracker, then the weak-memory buffer. -/
def before_memory_write (m : MachineState) (ae : AllocExtra) (alloc_id : AllocId)
    (range : Nat × Nat) (raceResult btResult : Except InterpError Unit) :
    List Event × Except InterpError Unit :=
  let tr0 : List Event :=
    if m.track_alloc_accesses && m.tracked_alloc_ids.contains alloc_id then
      [Event.diagAccessedAlloc alloc_id AccessKind.Write]
    else []
  match ae.data_race, raceResult with
  | some _, Except.error e =>
      (tr0 ++ [Event.raceWrite alloc_id range NaWriteType.Write], Except.error e)
  | some _, Except.ok _ =>
      write_after_race m ae alloc_id range btResult
        (tr0 ++ [Event.raceWrite alloc_id range NaWriteType.Write])
  | none, _ => write_after_race m ae alloc_id range btResult tr0

/-- Which component an event belongs to, numbered in the order the claim C4
asserts the components are notified: diagnostics 0, borrow tracker 1,
data-race detector 2, weak-memory buffer 3, span table and address
retirement 4. -/
def eventTier : Event → Nat
  | Event.diagCreatedAlloc _ _ _ _ => 0
  | Event.diagFreedAlloc _ => 0
  | Event.diagAccessedAlloc _ _ => 0
  | Event.btNewAllocation _ _ _ => 1
  | Event.btRead _ _ => 1
  | Event.btWrite _ _ => 1
  | Event.btDealloc _ _ => 1
  | Event.raceNewAllocation _ _ => 2
  | Event.raceRead _ _ => 2
  | Event.raceWrite _ _ _ => 2
  | Event.wmNewAllocation => 3
  | Event.wmMemoryAccessed _ => 3
  | Event.spanRecord _ _ => 4
  | Event.freeAllocId _ _ _ => 4

/-- Borrow-tracker events. -/
def isBtEvent (e : Event) : Bool := eventTier e == 1

/-- Data-race detector events. -/
def isRaceEvent (e : Event) : Bool := eventTier e == 2

/-- Weak-memory store-buffer events. -/
def isWmEvent (e : Event) : Bool := eventTier e == 3

/-- A concrete machine state with all three sub-components enabled. -/
def mAll : MachineState :=
  { borrow_tracker := some ()
    data_race := some ()
    weak_memory := true
    tracked_alloc_ids := []
    track_alloc_accesses := false
    collect_leak_backtraces := true
    allocation_spans := []
    current_span := 7 }

/-- A concrete per-allocation extra state with all three sub-states present. -/
def aeAll : AllocExtra :=
  { borrow_tracker := some ()
    data_race := some ()
    weak_memory := some ()
    backtrace := none }

/-- Helper: dealloc_after_race only appends to the trace it is given. -/
theorem dealloc_after_race_extends (m : MachineState) (ae : AllocExtra)
    (alloc_id size align : Nat) (btResult : Except InterpError Unit) (tr : List Event) :
    ∃ rest, (dealloc_after_race m ae alloc_id size align btResult tr).1 = tr ++ rest := by
  unfold dealloc_after_race
  cases ae.borrow_tracker <;> cases btResult <;> exact ⟨_, rfl⟩

/-- C3: on a deallocation of an allocation whose race-detector state is
present, the race detector is notified of a write of type Deallocate covering
the byte range from offset 0 to the full size, and this notification precedes
any address retirement (the commit of the deallocation) in the hook's trace. -/
theorem dealloc_notifies_race_before_commit (m : MachineState) (ae : AllocExtra)
    (alloc_id size align : Nat) (raceResult btResult : Except InterpError Unit)
    (h : ae.data_race = some ()) :
    ∃ pre post,
      (before_memory_deallocation m ae alloc_id size align raceResult btResult).1
        = pre ++ Event.raceWrite alloc_id (0, size) NaWriteType.Deallocate :: post
      ∧ ∀ sz al, Event.freeAllocId alloc_id sz al ∉ pre := by
  have hpre : ∀ sz al, Event.freeAllocId alloc_id sz al ∉
      (if m.tracked_alloc_ids.contains alloc_id then [Event.diagFreedAlloc alloc_id] else []) := by
    intro sz al
    cases m.tracked_alloc_ids.contains alloc_id <;> simp
  unfold before_memory_deallocation
  rw [h]
  cases raceResult with
  | error e =>
      exact ⟨_, [], rfl, hpre⟩
  | ok u =>
      obtain ⟨rest, hrest⟩ := dealloc_after_race_extends m ae alloc_id size align btResult
        ((if m.tracked_alloc_ids.contains alloc_id then [Event.diagFreedAlloc alloc_id] else [])
          ++ [Event.raceWrite alloc_id (0, size) NaWriteType.Deallocate])
      refine ⟨_, rest, ?_, hpre⟩
      show (dealloc_after_race m ae alloc_id size align btResult
        ((if m.tracked_alloc_ids.contains alloc_id then [Event.diagFreedAlloc alloc_id] else [])
          ++ [Event.raceWrite alloc_id (0, size) NaWriteType.Deallocate])).1 = _
      rw [hrest, List.append_assoc]
      rfl

/-- Witness for C3 at a concrete machine, allocation 3 of size 8, align 4. -/
theorem dealloc_notifies_race_before_commit_witness :
    ∃ pre post,
      (before_memory_deallocation mAll aeAll 3 8 4 (Except.ok ()) (Except.ok ())).1
        = pre ++ Event.raceWrite 3 (0, 8) NaWriteType.Deallocate :: post
      ∧ ∀ sz al, Event.freeAllocId 3 sz al ∉ pre :=
  dealloc_notifies_race_before_commit mAll aeAll 3 8 4 (Except.ok ()) (Except.ok ()) rfl

/-- C4 counterexample: with all three sub-components enabled, the
deallocation hook notifies the race detector first and the borrow tracker
second, and never notifies the weak-memory buffer, so the claimed fixed order
(borrow tracker, then race detector, then weak-memory buffer) fails on
deallocation. -/
theorem dealloc_notification_order_cex :
    (before_memory_deallocation mAll aeAll 0 8 4 (Except.ok ()) (Except.ok ())).1
      = [Event.raceWrite 0 (0, 8) NaWriteType.Deallocate, Event.btDealloc 0 8,
          Event.freeAllocId 0 8 4]
    ∧ ¬ (((before_memory_deallocation mAll aeAll 0 8 4
          (Except.ok ()) (Except.ok ())).1.map eventTier).Pairwise (· ≤ ·))
    ∧ ((before_memory_deallocation mAll aeAll 0 8 4 (Except.ok ()) (Except.ok ())).1.all
          fun e => !isWmEvent e) = true := by
  refine ⟨rfl, ?_, rfl⟩
  intro hp
  have h0 := List.rel_of_pairwise_cons hp (List.mem_cons_self _ _)
  simp [mAll, aeAll, before_memory_deallocation, dealloc_after_race, eventTier] at h0

/-- C4 amended: on allocation the components are notified in the order borrow
tracker, race detector, weak-memory buffer (the component tiers along the
trace are monotone); on deallocation the weak-memory buffer is never notified
and no borrow-tracker notification precedes a race-detector notification (the
race detector is notified first). -/
theorem notification_order (m : MachineState) (ae : AllocExtra) (id size align : Nat)
    (kind : MemoryKind) (raceResult btResult : Except InterpError Unit) :
    (((adjust_allocation m id size align kind).1.map eventTier).Pairwise (· ≤ ·))
    ∧ ((before_memory_deallocation m ae id size align raceResult btResult).1.all
          fun e => !isWmEvent e) = true
    ∧ ((before_memory_deallocation m ae id size align raceResult btResult).1.Pairwise
          fun a b => ¬(isBtEvent a = true ∧ isRaceEvent b = true)) := by
  refine ⟨?_, ?_, ?_⟩
  · simp only [adjust_allocation]
    cases m.tracked_alloc_ids.contains id <;>
      cases m.borrow_tracker <;>
        cases m.data_race <;>
          cases m.weak_memory <;>
            cases kind.saves_allocation_span <;>
              simp [List.pairwise_append, eventTier]
  · simp only [before_memory_deallocation, dealloc_after_race]
    cases m.tracked_alloc_ids.contains id <;>
      cases ae.data_race <;>
        cases raceResult <;>
          cases ae.borrow_tracker <;>
            cases btResult <;>
              simp [isWmEvent, eventTier]
  · simp only [before_memory_deallocation, dealloc_after_race]
    cases m.tracked_alloc_ids.contains id <;>
      cases ae.data_race <;>
        cases raceResult <;>
          cases ae.borrow_tracker <;>
            cases btResult <;>
              simp [isBtEvent, isRaceEvent, eventTier]

/-- A machine with the race detector disabled but weak-memory emulation on. -/
def mNoRace : MachineState :=
  { mAll with data_race := none }

/-- Per-allocation state of an allocation that has a store buffer but no
race-detector state (what adjust_allocation builds under mNoRace). -/
def aeWmOnly : AllocExtra :=
  { borrow_tracker := none
    data_race := none
    weak_memory := some ()
    backtrace := none }

/-- C5 counterexample: on an allocation that has weak-memory state, a read or
a write panics (Option::unwrap on None) when the machine's race detector is
disabled, instead of succeeding; so access accounting does not succeed
regardless of whether the race detector is enabled. -/
theorem weak_memory_access_requires_race_cex :
    (before_memory_read mNoRace aeWmOnly 0 (0, 4) (Except.ok ()) (Except.ok ())).2
      = Except.error (InterpError.panicked "called Option::unwrap on a None value")
    ∧ (before_memory_write mNoRace aeWmOnly 0 (0, 4) (Except.ok ()) (Except.ok ())).2
      = Except.error (InterpError.panicked "called Option::unwrap on a None value") :=
  ⟨rfl, rfl⟩

/-- Helper: the weak-memory step succeeds and records the accounting event
when the global race-detector state is present. -/
theorem wm_step_ok (m : MachineState) (ae : AllocExtra) (range : Nat × Nat)
    (tr : List Event) (hwm : ae.weak_memory = some ()) (hdr : m.data_race = some ()) :
    wm_accessed_step m ae range tr = (tr ++ [Event.wmMemoryAccessed range], Except.ok ()) := by
  simp [wm_accessed_step, hwm, hdr]

/-- Helper: the weak-memory step panics when the global race-detector state is
absent. -/
theorem wm_step_panics (m : MachineState) (ae : AllocExtra) (range : Nat × Nat)
    (tr : List Event) (hwm : ae.weak_memory = some ()) (hdr : m.data_race = none) :
    wm_accessed_step m ae range tr
      = (tr, Except.error (InterpError.panicked "called Option::unwrap on a None value")) := by
  simp [wm_accessed_step, hwm, hdr]

/-- Helper: after the race call, a read on a weak-memory allocation succeeds
and performs the weak-memory accounting when the race detector is enabled. -/
theorem read_after_race_wm_ok (m : MachineState) (ae : AllocExtra) (alloc_id : AllocId)
    (range : Nat × Nat) (tr : List Event) (hwm : ae.weak_memory = some ())
    (hdr : m.data_race = some ()) :
    (read_after_race m ae alloc_id range (Except.ok ()) tr).2 = Except.ok ()
    ∧ Event.wmMemoryAccessed range ∈ (read_after_race m ae alloc_id range (Except.ok ()) tr).1 := by
  cases hbt : ae.borrow_tracker <;>
    simp [read_after_race, hbt, wm_step_ok m ae range _ hwm hdr]

/-- Helper: after the race call, a write on a weak-memory allocation succeeds
and performs the weak-memory accounting when the race detector is enabled. -/
theorem write_after_race_wm_ok (m : MachineState) (ae : AllocExtra) (alloc_id : AllocId)
    (range : Nat × Nat) (tr : List Event) (hwm : ae.weak_memory = some ())
    (hdr : m.data_race = some ()) :
    (write_after_race m ae alloc_id range (Except.ok ()) tr).2 = Except.ok ()
    ∧ Event.wmMemoryAccessed range ∈ (write_after_race m ae alloc_id range (Except.ok ()) tr).1 := by
  cases hbt : ae.borrow_tracker <;>
    simp [write_after_race, hbt, wm_step_ok m ae range _ hwm hdr]

/-- Helper: after the race call, a read on a weak-memory allocation panics
when the race detector is disabled. -/
theorem read_after_race_wm_panics (m : MachineState) (ae : AllocExtra) (alloc_id : AllocId)
    (range : Nat × Nat) (tr : List Event) (hwm : ae.weak_memory = some ())
    (hdr : m.data_race = none) :
    (read_after_race m ae alloc_id range (Except.ok ()) tr).2
      = Except.error (InterpError.panicked "called Option::unwrap on a None value") := by
  cases hbt : ae.borrow_tracker <;>
    simp [read_after_race, hbt, wm_step_panics m ae range _ hwm hdr]

/-- Helper: after the race call, a write on a weak-memory allocation panics
when the race detector is disabled. -/
theorem write_after_race_wm_panics (m : MachineState) (ae : AllocExtra) (alloc_id : AllocId)
    (range : Nat × Nat) (tr : List Event) (hwm : ae.weak_memory = some ())
    (hdr : m.data_race = none) :
    (write_after_race m ae alloc_id range (Except.ok ()) tr).2
      = Except.error (InterpError.panicked "called Option::unwrap on a None value") := by
  cases hbt : ae.borrow_tracker <;>
    simp [write_after_race, hbt, wm_step_panics m ae range _ hwm hdr]

/-- C5 amended: on every read and write of an allocation with weak-memory
state (when the per-access race and borrow-tracker calls succeed), the
weak-memory accounting consults the global race-detector state; the access
succeeds and the accounting event occurs exactly when the race detector is
enabled, and it panics when the race detector is disabled — buffer existence
is independent of the race detector, but the access accounting is not. -/
theorem weak_memory_access_amended (m : MachineState) (ae : AllocExtra)
    (alloc_id : AllocId) (range : Nat × Nat) (hwm : ae.weak_memory = some ()) :
    (m.data_race = some () →
      (before_memory_read m ae alloc_id range (Except.ok ()) (Except.ok ())).2 = Except.ok ()
      ∧ Event.wmMemoryAccessed range
          ∈ (before_memory_read m ae alloc_id range (Except.ok ()) (Except.ok ())).1
      ∧ (before_memory_write m ae alloc_id range (Except.ok ()) (Except.ok ())).2 = Except.ok ()
      ∧ Event.wmMemoryAccessed range
          ∈ (before_memory_write m ae alloc_id range (Except.ok ()) (Except.ok ())).1)
    ∧ (m.data_race = none →
      (before_memory_read m ae alloc_id range (Except.ok ()) (Except.ok ())).2
        = Except.error (InterpError.panicked "called Option::unwrap on a None value")
      ∧ (before_memory_write m ae alloc_id range (Except.ok ()) (Except.ok ())).2
        = Except.error (InterpError.panicked "called Option::unwrap on a None value")) := by
  constructor
  · intro hdr
    have hr := fun tr => read_after_race_wm_ok m ae alloc_id range tr hwm hdr
    have hw := fun tr => write_after_race_wm_ok m ae alloc_id range tr hwm hdr
    cases hadr : ae.data_race <;>
      simp only [before_memory_read, before_memory_write, hadr] <;>
        exact ⟨(hr _).1, (hr _).2, (hw _).1, (hw _).2⟩
  · intro hdr
    have hr := fun tr => read_after_race_wm_panics m ae alloc_id range tr hwm hdr
    have hw := fun tr => write_after_race_wm_panics m ae alloc_id range tr hwm hdr
    cases hadr : ae.data_race <;>
      simp only [before_memory_read, before_memory_write, hadr] <;>
        exact ⟨hr _, hw _⟩

/-- Witness for C5's amended theorem at the concrete states mAll / aeAll. -/
theorem weak_memory_access_amended_witness :
    (mAll.data_race = some () →
      (before_memory_read mAll aeAll 0 (0, 4) (Except.ok ()) (Except.ok ())).2 = Except.ok ()
      ∧ Event.wmMemoryAccessed (0, 4)
          ∈ (before_memory_read mAll aeAll 0 (0, 4) (Except.ok ()) (Except.ok ())).1
      ∧ (before_memory_write mAll aeAll 0 (0, 4) (Except.ok ()) (Except.ok ())).2 = Except.ok ()
      ∧ Event.wmMemoryAccessed (0, 4)
          ∈ (before_memory_write mAll aeAll 0 (0, 4) (Except.ok ()) (Except.ok ())).1)
    ∧ (mAll.data_race = none →
      (before_memory_read mAll aeAll 0 (0, 4) (Except.ok ()) (Except.ok ())).2
        = Except.error (InterpError.panicked "called Option::unwrap on a None value")
      ∧ (before_memory_write mAll aeAll 0 (0, 4) (Except.ok ()) (Except.ok ())).2
        = Except.error (InterpError.panicked "called Option::unwrap on a None value")) :=
  weak_memory_access_amended mAll aeAll 0 (0, 4) rfl

/-- Identity of a MIR constant (mir::Const), opaque. -/
abbrev ConstId := Nat

/-- An evaluated constant operand (OpTy), opaque. -/
abbrev OpVal := Nat

/-- The constant-evaluation cache of MiriMachine (const_cache): a map from
(constant, per-frame salt) to the evaluated operand, as an association
list. -/
abbrev ConstCache := List ((ConstId × Nat) × OpVal)

/-- Lookup in the constant cache (FxHashMap::entry deciding vacant versus
occupied). -/
def lookupConst (cache : ConstCache) (key : ConstId × Nat) : Option OpVal :=
  (cache.find? fun e => e.1 == key).map (·.2)

/-- What one call of eval_mir_constant produces: the returned result, the
cache afterwards, and how many times the evaluation function was invoked. -/
structure EvalOutcome where
  result : Except InterpError OpVal
  cache : ConstCache
  evalCalls : Nat
  deriving Repr

/-- MiriMachine::eval_mir_constant: the cache is keyed by (constant, frame
salt); an occupied entry returns the cached operand without invoking the
evaluation function, a vacant entry invokes it, stores the result on success
and returns it. -/
def eval_mir_constant (cache : ConstCache) (val : ConstId) (salt : Nat)
    (evalConst : ConstId → Except InterpError OpVal) : EvalOutcome :=
  match lookupConst cache (val, salt) with
  | some op => ⟨Except.ok op, cache, 0⟩
  | none =>
      match evalConst val with
      | Except.ok op => ⟨Except.ok op, ((val, salt), op) :: cache, 1⟩
      | Except.error e => ⟨Except.error e, cache, 1⟩

/-- Helper: a freshly inserted cache entry is found by the next lookup. -/
theorem lookupConst_cons_self (cache : ConstCache) (key : ConstId × Nat) (op : OpVal) :
    lookupConst ((key, op) :: cache) key = some op := by
  simp [lookupConst]

/-- C6: a cache hit on (constant, frame salt) returns the cached value with
the cache unchanged and the evaluator not invoked; a miss invokes the
evaluator, stores and returns its value; consequently evaluating the same
constant twice with the same frame salt yields identical results. -/
theorem eval_mir_constant_cache_spec (cache : ConstCache) (val : ConstId) (salt : Nat)
    (evalConst : ConstId → Except InterpError OpVal) :
    (∀ op, lookupConst cache (val, salt) = some op →
        eval_mir_constant cache val salt evalConst = ⟨Except.ok op, cache, 0⟩)
    ∧ (∀ op, lookupConst cache (val, salt) = none → evalConst val = Except.ok op →
        eval_mir_constant cache val salt evalConst
          = ⟨Except.ok op, ((val, salt), op) :: cache, 1⟩)
    ∧ (eval_mir_constant (eval_mir_constant cache val salt evalConst).cache
          val salt evalConst).result
        = (eval_mir_constant cache val salt evalConst).result := by
  refine ⟨fun op hop => by simp [eval_mir_constant, hop],
    fun op hnone hev => by simp [eval_mir_constant, hnone, hev], ?_⟩
  cases hl : lookupConst cache (val, salt) with
  | some op => simp [eval_mir_constant, hl]
  | none =>
      cases he : evalConst val with
      | ok op => simp [eval_mir_constant, hl, he, lookupConst_cons_self]
      | error e => simp [eval_mir_constant, hl, he]

/-- ADDRS_PER_CONST from machine.rs: each const has at most this many
addresses. -/
def ADDRS_PER_CONST : Nat := 16

/-- The salt field computed by init_frame_extra: the next random-number value,
reduced modulo ADDRS_PER_CONST. -/
def frame_salt (rngValue : Nat) : Nat := rngValue % ADDRS_PER_CONST

/-- The salts of successive frames, given the values the random-number
generator produces. -/
def frame_salts (rngValues : List Nat) : List Nat := rngValues.map frame_salt

/-- Round-robin reuse of the address pool, as the claim C7 states it: each
frame's pool entry is the successor (mod ADDRS_PER_CONST) of the previous
frame's. -/
def roundRobinReuse (salts : List Nat) : Prop :=
  salts.Chain' fun a b => b = (a + 1) % ADDRS_PER_CONST

/-- C7 counterexample: with the random-number generator producing 0 then 5,
the successive frame salts are 0 and 5, which is not round-robin reuse (round
robin would demand 1 after 0): pool entries are chosen by the RNG, not
cycled. -/
theorem frame_salt_not_round_robin_cex :
    frame_salts [0, 5] = [0, 5] ∧ ¬ roundRobinReuse (frame_salts [0, 5]) := by
  refine ⟨rfl, ?_⟩
  intro h
  have h0 := List.chain'_cons.mp h
  simp [frame_salt, ADDRS_PER_CONST] at h0

/-- C7 amended: address assignment for repeated evaluations of a constant is
capped to a pool of ADDRS_PER_CONST = 16 entries — every frame salt is the
RNG value modulo 16, so at most 16 distinct salts (hence cache keys per
constant) ever arise — but the pool entry is selected by the random-number
generator for each frame, not reused in round-robin order. -/
theorem frame_salt_pool_bounded (rngValues : List Nat) :
    ADDRS_PER_CONST = 16
    ∧ (∀ r, frame_salt r < ADDRS_PER_CONST)
    ∧ (∀ s ∈ frame_salts rngValues, s < ADDRS_PER_CONST)
    ∧ (frame_salts rngValues).toFinset.card ≤ ADDRS_PER_CONST := by
  have hmem : ∀ s ∈ frame_salts rngValues, s < ADDRS_PER_CONST := by
    intro s hs
    simp only [frame_salts, List.mem_map] at hs
    obtain ⟨r, _, rfl⟩ := hs
    exact Nat.mod_lt _ (by decide)
  refine ⟨rfl, fun r => Nat.mod_lt _ (by decide), hmem, ?_⟩
  have hsub : (frame_salts rngValues).toFinset ⊆ Finset.range ADDRS_PER_CONST := by
    intro x hx
    rw [List.mem_toFinset] at hx
    exact Finset.mem_range.mpr (hmem x hx)
  calc (frame_salts rngValues).toFinset.card
      ≤ (Finset.range ADDRS_PER_CONST).card := Finset.card_le_card hsub
    _ = ADDRS_PER_CONST := Finset.card_range _

/-- Whether adjust_allocation records a creation source-location for the
allocation: a spanRecord event appears in its trace. -/
def recordsAllocationSpan (m : MachineState) (id size align : Nat)
    (kind : MemoryKind) : Bool :=
  (adjust_allocation m id size align kind).1.any fun e =>
    match e with
    | Event.spanRecord _ _ => true
    | _ => false

/-- C8 counterexample: an Mmap allocation is leak-permitted (may_leak is
true), yet adjust_allocation does record a creation span for it, so spans are
not recorded only for kinds that are neither leak-permitted nor excluded from
tracking. -/
theorem allocation_span_mmap_cex :
    recordsAllocationSpan mAll 0 8 4 (MemoryKind.Machine MiriMemoryKind.Mmap) = true
    ∧ (MemoryKind.Machine MiriMemoryKind.Mmap).may_leak = true
    ∧ MiriMemoryKind.Runtime.may_leak = false
    ∧ recordsAllocationSpan mAll 0 8 4 (MemoryKind.Machine MiriMemoryKind.Runtime) = false :=
  ⟨rfl, rfl, rfl, rfl⟩

/-- C8 amended: a creation span is recorded if and only if the memory kind is
a machine kind whose should_save_allocation_span holds, that is exactly for
Rust, Miri, C, WinHeap, WinLocal and Mmap — a set that includes the
leak-permitted Mmap and excludes the non-leak-permitted Runtime, so it is not
characterised by leak permission. -/
theorem allocation_span_recorded_iff (m : MachineState) (id size align : Nat)
    (kind : MemoryKind) :
    (recordsAllocationSpan m id size align kind = kind.saves_allocation_span)
    ∧ (kind.saves_allocation_span = true ↔
        kind ∈ [MemoryKind.Machine MiriMemoryKind.Rust, MemoryKind.Machine MiriMemoryKind.Miri,
          MemoryKind.Machine MiriMemoryKind.C, MemoryKind.Machine MiriMemoryKind.WinHeap,
          MemoryKind.Machine MiriMemoryKind.WinLocal,
          MemoryKind.Machine MiriMemoryKind.Mmap]) := by
  constructor
  · simp only [recordsAllocationSpan, adjust_allocation]
    cases m.tracked_alloc_ids.contains id <;>
      cases m.borrow_tracker <;>
        cases m.data_race <;>
          cases m.weak_memory <;>
            cases kind.saves_allocation_span <;>
              simp
  · rcases kind with _ | _ | k
    · decide
    · decide
    · cases k <;> decide

/-- The pointer values registered in the machine's extern_statics table and
the layout facts extern_static_base_pointer consults for one lookup: the
registered base pointer for the symbol's link name (if any), the size and
alignment of the backing shim allocation (get_alloc_info), and the size and
alignment of the declared type's layout. -/
structure ExternStaticLookup where
  registered : Option (Provenance × Nat)
  shim_size : Nat
  shim_align : Nat
  decl_size : Nat
  decl_align : Nat
  deriving Repr

/-- MiriMachine::extern_static_base_pointer: an unregistered extern static is
an unsupported-operation error; a registered one must have Concrete
provenance (a wildcard is a machine panic) and is returned only when the
declared type's size and alignment equal the shim allocation's, a mismatch
being an unsupported-operation error. -/
def extern_static_base_pointer (s : ExternStaticLookup) :
    Except InterpError (Provenance × Nat) :=
  match s.registered with
  | some ptr =>
      match ptr.1 with
      | Provenance.Concrete _ _ =>
          if s.decl_size ≠ s.shim_size ∨ s.decl_align ≠ s.shim_align then
            Except.error (InterpError.unsup "extern static size or alignment mismatch")
          else Except.ok ptr
      | Provenance.Wildcard =>
          Except.error (InterpError.panicked "extern_statics cannot contain wildcards")
  | none => Except.error (InterpError.unsup "extern static is not supported by Miri")

/-- C9: extern-static lookup returns the registered base pointer exactly when
the declared size and alignment equal the shim allocation's (and then the
pointer carries one concrete allocation); a size or alignment mismatch is an
unsupported-operation error, and an extern static with no registered pointer
is an unsupported-operation error. -/
theorem extern_static_base_pointer_spec (s : ExternStaticLookup) :
    (∀ ptr, extern_static_base_pointer s = Except.ok ptr →
        s.registered = some ptr ∧ s.decl_size = s.shim_size ∧ s.decl_align = s.shim_align
        ∧ ∃ a t, ptr.1 = Provenance.Concrete a t)
    ∧ (∀ ptr a t, s.registered = some ptr → ptr.1 = Provenance.Concrete a t →
        s.decl_size = s.shim_size → s.decl_align = s.shim_align →
        extern_static_base_pointer s = Except.ok ptr)
    ∧ (∀ ptr a t, s.registered = some ptr → ptr.1 = Provenance.Concrete a t →
        (s.decl_size ≠ s.shim_size ∨ s.decl_align ≠ s.shim_align) →
        extern_static_base_pointer s
          = Except.error (InterpError.unsup "extern static size or alignment mismatch"))
    ∧ (s.registered = none →
        extern_static_base_pointer s
          = Except.error (InterpError.unsup "extern static is not supported by Miri")) := by
  obtain ⟨reg, ss, sa, ds, da⟩ := s
  refine ⟨?_, ?_, ?_, ?_⟩
  · intro ptr hok
    cases reg with
    | none => exact absurd hok (by simp [extern_static_base_pointer])
    | some q =>
        obtain ⟨qp, qa⟩ := q
        cases qp with
        | Wildcard => exact absurd hok (by simp [extern_static_base_pointer])
        | Concrete a t =>
            simp only [extern_static_base_pointer] at hok
            by_cases hc : ds ≠ ss ∨ da ≠ sa
            · rw [if_pos hc] at hok
              exact absurd hok (by simp)
            · rw [if_neg hc] at hok
              push_neg at hc
              cases hok
              exact ⟨rfl, hc.1, hc.2, a, t, rfl⟩
  · intro ptr a t hreg hq h1 h2
    simp only at hreg h1 h2
    subst hreg
    obtain ⟨p1, p2⟩ := ptr
    simp only at hq
    subst hq
    subst h1
    subst h2
    simp [extern_static_base_pointer]
  · intro ptr a t hreg hq hc
    simp only at hreg hc
    subst hreg
    obtain ⟨p1, p2⟩ := ptr
    simp only at hq
    subst hq
    simp only [extern_static_base_pointer]
    rw [if_pos hc]
  · intro hreg
    simp only at hreg
    subst hreg
    simp [extern_static_base_pointer]

/-- Witness for C9 at concrete lookups: a registered matching static, a
mismatched one, and an unregistered one. -/
theorem extern_static_base_pointer_spec_witness :
    extern_static_base_pointer ⟨some (Provenance.Concrete 2 1, 64), 8, 4, 8, 4⟩
      = Except.ok (Provenance.Concrete 2 1, 64)
    ∧ extern_static_base_pointer ⟨some (Provenance.Concrete 2 1, 64), 8, 4, 16, 4⟩
      = Except.error (InterpError.unsup "extern static size or alignment mismatch")
    ∧ extern_static_base_pointer ⟨none, 8, 4, 8, 4⟩
      = Except.error (InterpError.unsup "extern static is not supported by Miri") :=
  ⟨(extern_static_base_pointer_spec ⟨some (Provenance.Concrete 2 1, 64), 8, 4, 8, 4⟩).2.1
      (Provenance.Concrete 2 1, 64) 2 1 rfl rfl rfl rfl,
    (extern_static_base_pointer_spec ⟨some (Provenance.Concrete 2 1, 64), 8, 4, 16, 4⟩).2.2.1
      (Provenance.Concrete 2 1, 64) 2 1 rfl rfl (Or.inl (by decide)),
    (extern_static_base_pointer_spec ⟨none, 8, 4, 8, 4⟩).2.2.2 rfl⟩

/-- The set of exposed pointer identities (allocation id, borrow tag). -/
abbrev ExposedSet := List (AllocId × BorTag)

/-- Modelled from the spec: the bookkeeping behind ecx.expose_ptr(alloc_id,
tag) lives in the alloc_addresses and borrow-tracker modules, which are
outside the examined file; per the spec, expose marks a concrete pointer's
identity as available to future wildcard resolution, so it records the
(allocation id, tag) pair as an exposure candidate. -/
def exposeConcreteIdentity (s : ExposedSet) (alloc_id : AllocId) (tag : BorTag) :
    ExposedSet :=
  (alloc_id, tag) :: s

/-- Machine::expose_ptr from machine.rs: a pointer with Concrete provenance
has its allocation id and tag recorded as an exposure candidate; a Wildcard
pointer needs nothing done (its provenance was already exposed) and the hook
returns Ok with the state untouched. -/
def expose_ptr (s : ExposedSet) (prov : Provenance) : Except InterpError ExposedSet :=
  match prov with
  | Provenance.Concrete alloc_id tag => Except.ok (exposeConcreteIdentity s alloc_id tag)
  | Provenance.Wildcard => Except.ok s

/-- C10: exposing a Wildcard pointer always succeeds and leaves the exposure
state unchanged; only a Concrete pointer records its allocation id and tag as
an exposure candidate. -/
theorem expose_ptr_spec :
    ∀ s : ExposedSet,
      expose_ptr s Provenance.Wildcard = Except.ok s
      ∧ (∀ a t, expose_ptr s (Provenance.Concrete a t) = Except.ok ((a, t) :: s)) :=
  fun s => ⟨rfl, fun _ _ => rfl⟩

end MiriSpec
